import Mathlib

/-!
Verification of the PMC PDF downloader script (pmc_pdf_download.py).

The script is linear I/O orchestration, so we shallowly embed its effects:
the file system and the console are a `World` (an association list of file
paths to contents, a list of existing directories, and the list of printed
messages), the network is a function from a URL to a status code and a body,
and the tar-file layer (library code) is a function from archive bytes to an
optional list of extracted entries (relative path, content); a parse failure
or a missing file is an explicit error.  Python exceptions become
`Except (PyError × World)` carrying the world at the moment of the raise.
-/

set_option maxRecDepth 4000

namespace Pmc

/-! ## String helpers (models of `str.split`, `str.startswith`, ...) -/

/-- Model of Python `p.startswith(pre)` on path strings. -/
def strStartsWith (s pre : String) : Bool :=
  pre.data.isPrefixOf s.data

/-- Model of Python `f.endswith(suf)` (used for the `.pdf` filter). -/
def strEndsWith (s suf : String) : Bool :=
  suf.data.isSuffixOf s.data

/-- Model of `url.split("/")[-1]`: the suffix after the last slash. -/
def lastSegment (url : String) : String :=
  ⟨(url.data.reverse.takeWhile (fun c => !(decide (c = '/')))).reverse⟩

/-- Split a character list at every slash (model of `split("/")`). -/
def splitOnSlash : List Char → List (List Char)
  | [] => [[]]
  | c :: cs =>
    if c = '/' then [] :: splitOnSlash cs
    else
      match splitOnSlash cs with
      | [] => [[c]]
      | g :: gs => (c :: g) :: gs

/-- Join character-list path components with slashes. -/
def joinSlash : List (List Char) → List Char
  | [] => []
  | [g] => g
  | g :: gs => g ++ '/' :: joinSlash gs

/-- The proper directory components of a relative path: for `a/b/c.pdf`
this is `[a, a/b]`.  Used to model the directories materialised by
`tarfile.extractall`. -/
def dirPrefixes (p : String) : List String :=
  (List.range (splitOnSlash p.data).length).filterMap (fun k =>
    if k = 0 then none else some ⟨joinSlash ((splitOnSlash p.data).take k)⟩)

/-- Fuel-driven splitter on a multi-character separator (structural in the
fuel so that it evaluates inside the kernel). -/
def splitOnLAux (sep : List Char) : Nat → List Char → List Char → List (List Char)
  | _, [], acc => [acc.reverse]
  | 0, rest, acc => [acc.reverse ++ rest]
  | fuel + 1, c :: cs, acc =>
    if sep.isPrefixOf (c :: cs) then
      acc.reverse :: splitOnLAux sep fuel ((c :: cs).drop sep.length) []
    else
      splitOnLAux sep fuel cs (c :: acc)

/-- Split a character list on a (nonempty) separator, like `str.split(sep)`. -/
def splitOnL (sep l : List Char) : List (List Char) :=
  if sep.isEmpty then [l] else splitOnLAux sep l.length l []

/-- Model of `os.path.join(a, b)` on slash-free-suffix arguments. -/
def joinPath (a b : String) : String :=
  a ++ "/" ++ b

/-! ## The world: files, directories and console output -/

/-- The observable state: files on disk (path to content, first entry for a
key wins), existing directories, and everything printed to the console. -/
structure World where
  files : List (String × String)
  dirs : List String
  out : List String
  deriving Repr, DecidableEq

/-- Model of `print`: append one line to the console. -/
def emit (w : World) (s : String) : World :=
  { w with out := w.out ++ [s] }

/-- Content of the file at `p`, if any (model of reading a file). -/
def readFile (w : World) (p : String) : Option String :=
  (w.files.find? (fun e => decide (e.1 = p))).map (fun e => e.2)

/-- Model of `os.path.isfile`. -/
def fileExists (w : World) (p : String) : Bool :=
  (readFile w p).isSome

/-- Model of `os.path.isdir`. -/
def dirExists (w : World) (d : String) : Bool :=
  w.dirs.any (fun x => decide (x = d))

/-- Model of `os.path.exists`: a file or a directory at that path. -/
def pathExists (w : World) (p : String) : Bool :=
  fileExists w p || dirExists w p

/-- Model of `open(p, "wb").write(c)`: silently overwrites. -/
def writeFile (w : World) (p c : String) : World :=
  { w with files := (p, c) :: w.files.filter (fun e => !(decide (e.1 = p))) }

/-- Model of `os.remove p` (the call sites only reach it when `p` exists). -/
def removeFile (w : World) (p : String) : World :=
  { w with files := w.files.filter (fun e => !(decide (e.1 = p))) }

/-- Model of `os.makedirs(d, exist_ok=True)`. -/
def makedirs (w : World) (d : String) : World :=
  if dirExists w d then w else { w with dirs := d :: w.dirs }

/-- Model of `shutil.rmtree d`: delete `d` and everything below it. -/
def rmtree (w : World) (d : String) : World :=
  { w with
    files := w.files.filter (fun e => !(strStartsWith e.1 (d ++ "/"))),
    dirs := w.dirs.filter (fun x => !(decide (x = d) || strStartsWith x (d ++ "/"))) }

/-- Name of `p` as a direct child of directory `d`, if it is one. -/
def childName (d p : String) : Option String :=
  if strStartsWith p (d ++ "/") then
    let n : List Char := p.data.drop (d.data.length + 1)
    if n.isEmpty then none
    else if n.contains '/' then none
    else some ⟨n⟩
  else none

/-- Model of `os.listdir d`: names of the files and directories directly
inside `d` (order unspecified in Python; here first-seen order, deduplicated). -/
def listdir (w : World) (d : String) : List String :=
  (((w.files.map (fun e => e.1)) ++ w.dirs).filterMap (childName d)).dedup

/-! ## Console messages of the script (f-strings in the source) -/

def savedMsg (path : String) : String :=
  "File downloaded and saved as " ++ path

def failMsg (url : String) (status : Nat) : String :=
  "Failed to download file from " ++ url ++ ". HTTP status code: " ++ toString status

def extractedMsg (f : String) : String :=
  "Extracted PDF: " ++ f

def conflictMsg (f : String) : String :=
  "File " ++ f ++ " already exists!"

def noPdfMsg : String :=
  "No PDF found in the archive."

def noUrlMsg (pmc_id : String) : String :=
  "No PDF found for " ++ pmc_id

/-! ## The lookup table (`pd.DataFrame` with columns `Accession ID`, `File`) -/

/-- One row of `oa_comm_use_file_list.csv` as the script reads it. -/
structure Row where
  accessionID : String
  file : String
  deriving Repr, DecidableEq

/-- Errors raised by the Python runtime in the modelled paths. -/
inductive PyError where
  | fileNotFound (p : String)
  | tarReadError (p : String)
  deriving Repr, DecidableEq

/-! ## The five functions of the script -/

/-- Source `get_url` (lines 37-52): filter the table on the accession column
equal to `PMC<id>`, return `None` if empty, else the first `File` value. -/
def get_url (file_csv : List Row) (pmc_id : String) : Option String :=
  match (file_csv.filter (fun r => decide (r.accessionID = "PMC" ++ pmc_id))).head? with
  | none => none
  | some r => some r.file

/-- Source `download_file` (lines 54-86): GET the url; on 200 create the
directory, derive the file name from the url when absent, and write the
body; otherwise only print a failure line. -/
def download_file (net : String → Nat × String) (url save_dir : String)
    (file_name : Option String) (w : World) : World :=
  match net url with
  | (status, body) =>
    if status = 200 then
      let fname := match file_name with
        | none => lastSegment url
        | some n => n
      emit (writeFile (makedirs w save_dir) (joinPath save_dir fname) body)
        (savedMsg (joinPath save_dir fname))
    else
      emit w (failMsg url status)

/-- One step of `tar.extractall(path=save_dir)`: write the entry under
`save_dir` and materialise its parent directories. -/
def extractEntry (save_dir : String) (w : World) (entry : String × String) : World :=
  writeFile
    ((dirPrefixes entry.1).foldl (fun acc d => makedirs acc (joinPath save_dir d)) w)
    (joinPath save_dir entry.1) entry.2

/-- Model of `tar.extractall(path=save_dir)` on a parsed entry list. -/
def extractAll (entries : List (String × String)) (save_dir : String) (w : World) : World :=
  entries.foldl (extractEntry save_dir) w

/-- Loop body of `unzip_and_clean` (lines 139-145): move the pdf to
`save_dir` unless a file or directory with that name already exists there.
(Directory entries named `*.pdf` are not modelled as movable.) -/
def movePdf (extracted_dir save_dir : String) (w : World) (pdf_file : String) : World :=
  if pathExists w (joinPath save_dir pdf_file) then
    emit w (conflictMsg pdf_file)
  else
    match readFile w (joinPath extracted_dir pdf_file) with
    | some c =>
        emit (writeFile (removeFile w (joinPath extracted_dir pdf_file))
          (joinPath save_dir pdf_file) c) (extractedMsg pdf_file)
    | none => w

/-- Lines 135-147 of `unzip_and_clean`: list the extracted directory, keep
the `.pdf` names, and either report that none was found or move each one. -/
def movePhase (pmc_id save_dir : String) (w1 : World) : World :=
  if ((listdir w1 (joinPath save_dir ("PMC" ++ pmc_id))).filter
      (fun f => strEndsWith f ".pdf")).isEmpty then
    emit w1 noPdfMsg
  else
    ((listdir w1 (joinPath save_dir ("PMC" ++ pmc_id))).filter
      (fun f => strEndsWith f ".pdf")).foldl
      (movePdf (joinPath save_dir ("PMC" ++ pmc_id)) save_dir) w1

/-- Lines 149-151 of `unzip_and_clean`: `shutil.rmtree(extracted_dir)` then
`os.remove(tar_gz_path)` — the unconditional final cleanup. -/
def unzipFinish (pmc_id save_dir : String) (w2 : World) : World :=
  removeFile (rmtree w2 (joinPath save_dir ("PMC" ++ pmc_id)))
    (joinPath save_dir ("PMC" ++ pmc_id ++ ".tar.gz"))

/-- Lines 133-151 of `unzip_and_clean`, after a successful `tarfile.open` /
`extractall`: `os.listdir(extracted_dir)` raises if the directory does not
exist; otherwise run the move loop and the final cleanup. -/
def unzipRest (pmc_id save_dir : String) (w1 : World) : Except (PyError × World) World :=
  if dirExists w1 (joinPath save_dir ("PMC" ++ pmc_id)) then
    .ok (unzipFinish pmc_id save_dir (movePhase pmc_id save_dir w1))
  else
    .error (.fileNotFound (joinPath save_dir ("PMC" ++ pmc_id)), w1)

/-- Source `unzip_and_clean` (lines 115-151).  `tarfile.open` raises when
`<save_dir>/PMC<id>.tar.gz` is absent or is not a readable gzipped tar
(`parseTar` returning `none` models the latter); then the archive is
extracted into `save_dir` and the rest of the function runs. -/
def unzip_and_clean (parseTar : String → Option (List (String × String)))
    (pmc_id save_dir : String) (w : World) : Except (PyError × World) World :=
  match readFile w (joinPath save_dir ("PMC" ++ pmc_id ++ ".tar.gz")) with
  | none => .error (.fileNotFound (joinPath save_dir ("PMC" ++ pmc_id ++ ".tar.gz")), w)
  | some content =>
    match parseTar content with
    | none => .error (.tarReadError (joinPath save_dir ("PMC" ++ pmc_id ++ ".tar.gz")), w)
    | some entries => unzipRest pmc_id save_dir (extractAll entries save_dir w)

/-- The fixed FTP base url of the script (line 100). -/
def base_url : String :=
  "https://ftp.ncbi.nlm.nih.gov/pub/pmc/"

/-- Source `download_pmc_pdf` (lines 88-113): resolve the path; on a miss
print and return; otherwise download `base_url + link` and unconditionally
call `unzip_and_clean`. -/
def download_pmc_pdf (parseTar : String → Option (List (String × String)))
    (net : String → Nat × String) (pmc_id : String) (file_csv : List Row)
    (save_dir : String) (w : World) : Except (PyError × World) World :=
  match get_url file_csv pmc_id with
  | none => .ok (emit w (noUrlMsg pmc_id))
  | some link =>
    unzip_and_clean parseTar pmc_id save_dir
      (download_file net (base_url ++ link) save_dir none w)

/-- The E-utilities search url built on line 168. -/
def esearchUrl (search_term : String) (RetMax : Nat) : String :=
  "https://eutils.ncbi.nlm.nih.gov/entrez/eutils/esearch.fcgi?db=pmc&term="
    ++ search_term ++ "&RetMax=" ++ toString RetMax

/-- Model of `BeautifulSoup(data, "xml").find_all(Id)` followed by `.text`:
the chunks between each `<Id>` marker and the following `</Id>` marker, in
document order. -/
def findAllIds (data : String) : List String :=
  match splitOnL ("<Id>".data) data.data with
  | [] => []
  | _ :: rest => rest.map (fun chunk => ⟨(splitOnL ("</Id>".data) chunk).headD []⟩)

/-- Source `get_pmc_ids` (lines 153-179): download the search result into
`<save_dir>/<file_name>`, reopen that file (raising when it is absent), and
return the text of every `Id` element. -/
def get_pmc_ids (net : String → Nat × String) (search_term save_dir file_name : String)
    (RetMax : Nat) (w : World) : Except (PyError × World) (List String × World) :=
  match readFile (download_file net (esearchUrl search_term RetMax) save_dir (some file_name) w)
      (joinPath save_dir file_name) with
  | none => .error (.fileNotFound (joinPath save_dir file_name),
      download_file net (esearchUrl search_term RetMax) save_dir (some file_name) w)
  | some data => .ok (findAllIds data,
      download_file net (esearchUrl search_term RetMax) save_dir (some file_name) w)

/-- The `for pmc_id in pmc_ids` loop of `__main__` (lines 193-195): strictly
sequential, one unhandled exception aborts the rest of the batch. -/
def run_batch (parseTar : String → Option (List (String × String)))
    (net : String → Nat × String) (file_csv : List Row) (save_dir : String) :
    List String → World → Except (PyError × World) World
  | [], w => .ok w
  | pmc_id :: rest, w =>
    match download_pmc_pdf parseTar net pmc_id file_csv save_dir w with
    | .error e => .error e
    | .ok w1 => run_batch parseTar net file_csv save_dir rest w1

/-! ## Spec-side definition for the path-resolver refinement claim -/

/-- The resolver as the spec words it: the `File` value of the first row
whose accession column equals `PMC<identifier>`, else an absent value. -/
def get_url_spec (file_csv : List Row) (pmc_id : String) : Option String :=
  (file_csv.find? (fun r => decide (r.accessionID = "PMC" ++ pmc_id))).map Row.file

/-! ## Concrete inputs used by witnesses and counterexamples -/

/-- A network on which every GET fails with status 404. -/
def net404 : String → Nat × String := fun _ => (404, "")

/-- A network whose every response is a search document with three ids. -/
def netThree : String → Nat × String := fun _ => (200, "<Id>1</Id><Id>2</Id><Id>3</Id>")

/-- A network that serves the bytes of the demo archive. -/
def netTar : String → Nat × String := fun _ => (200, "TARBYTES")

/-- The empty file system. -/
def emptyWorld : World := ⟨[], [], []⟩

/-- A world already holding the downloaded archive `d/PMC7.tar.gz`. -/
def demoW : World := ⟨[(joinPath "d" "PMC7.tar.gz", "TARBYTES")], ["d"], []⟩

/-- A tar layer on which the demo archive extracts to `PMC7/foo.pdf`. -/
def demoParse : String → Option (List (String × String)) :=
  fun s => if s = "TARBYTES" then some [("PMC7/foo.pdf", "PDF")] else none

/-- A one-row lookup table for `PMC7`. -/
def demoTable : List Row := [⟨"PMC7", "oa/PMC7.tar.gz"⟩]

/-- A world holding an old file at `d/a.bin`, to exercise overwriting. -/
def wOld : World := ⟨[(joinPath "d" "a.bin", "OLD")], ["d"], []⟩

/-- A world with a single pdf inside the extracted directory `x`. -/
def wMove : World := ⟨[(joinPath "x" "a.pdf", "P")], [], []⟩

/-- A world where the move target `y/a.pdf` already exists. -/
def wConf : World := ⟨[(joinPath "x" "a.pdf", "P"), (joinPath "y" "a.pdf", "Q")], [], []⟩

/-- A table with two rows for the same accession `PMC7`. -/
def dupTable : List Row := [⟨"PMC7", "first.tar.gz"⟩, ⟨"PMC7", "second.tar.gz"⟩]

/-! ## Association-list lemmas -/

lemma head?_filter_eq_find? {α : Type} (p : α → Bool) (l : List α) :
    (l.filter p).head? = l.find? p := by
  induction l with
  | nil => rfl
  | cons a l ih =>
    cases h : p a with
    | false => simp [List.filter_cons, h, List.find?_cons, ih]
    | true => simp [List.filter_cons, h, List.find?_cons, ih]

lemma find?_filter_key_self (l : List (String × String)) (q : String) :
    (l.filter (fun e => !(decide (e.1 = q)))).find? (fun e => decide (e.1 = q)) = none := by
  induction l with
  | nil => rfl
  | cons a l ih =>
    by_cases h : a.1 = q
    · simp [List.filter_cons, h, ih]
    · simp [List.filter_cons, h, List.find?_cons, ih]

lemma find?_filter_key_ne (l : List (String × String)) (p q : String) (h : ¬ p = q) :
    (l.filter (fun e => !(decide (e.1 = q)))).find? (fun e => decide (e.1 = p))
      = l.find? (fun e => decide (e.1 = p)) := by
  induction l with
  | nil => rfl
  | cons a l ih =>
    by_cases hq : a.1 = q
    · have hp : ¬ a.1 = p := fun hc => h (hc.symm.trans hq)
      have hqp : ¬ q = p := fun hc => h hc.symm
      simp [List.filter_cons, hq, List.find?_cons, hp, hqp, ih]
    · by_cases hp : a.1 = p
      · simp [List.filter_cons, hq, List.find?_cons, hp, h, ih]
      · simp [List.filter_cons, hq, List.find?_cons, hp, ih]

lemma find?_filter_startsWith (l : List (String × String)) (d p : String)
    (h : strStartsWith p d = true) :
    (l.filter (fun e => !(strStartsWith e.1 d))).find? (fun e => decide (e.1 = p)) = none := by
  induction l with
  | nil => rfl
  | cons a l ih =>
    by_cases hp : a.1 = p
    · simp [List.filter_cons, hp, h, ih]
    · cases hs : strStartsWith a.1 d with
      | false => simp [List.filter_cons, hs, List.find?_cons, hp, ih]
      | true => simp [List.filter_cons, hs, ih]

lemma any_filter_rmtree (l : List String) (d : String) :
    (l.filter (fun x => !(decide (x = d) || strStartsWith x (d ++ "/")))).any
      (fun x => decide (x = d)) = false := by
  rw [List.any_eq_false]
  intro x hx
  have hpred := (List.mem_filter.mp hx).2
  simp only [Bool.not_eq_true', Bool.or_eq_false_iff, decide_eq_false_iff_not] at hpred
  simp [hpred.1]

/-! ## World lemmas -/

@[simp] lemma files_emit (w : World) (s : String) : (emit w s).files = w.files := rfl

@[simp] lemma dirs_emit (w : World) (s : String) : (emit w s).dirs = w.dirs := rfl

@[simp] lemma out_emit (w : World) (s : String) : (emit w s).out = w.out ++ [s] := rfl

@[simp] lemma readFile_emit (w : World) (s p : String) : readFile (emit w s) p = readFile w p := rfl

@[simp] lemma dirExists_emit (w : World) (s d : String) : dirExists (emit w s) d = dirExists w d := rfl

@[simp] lemma dirs_writeFile (w : World) (p c : String) : (writeFile w p c).dirs = w.dirs := rfl

@[simp] lemma out_writeFile (w : World) (p c : String) : (writeFile w p c).out = w.out := rfl

lemma out_makedirs (w : World) (d : String) : (makedirs w d).out = w.out := by
  unfold makedirs
  split <;> rfl

@[simp] lemma dirExists_writeFile (w : World) (p c d : String) :
    dirExists (writeFile w p c) d = dirExists w d := rfl

lemma readFile_writeFile_self (w : World) (p c : String) :
    readFile (writeFile w p c) p = some c := by
  simp [readFile, writeFile, List.find?_cons]

lemma readFile_writeFile_ne (w : World) (p c q : String) (h : ¬ q = p) :
    readFile (writeFile w p c) q = readFile w q := by
  have hne : ¬ p = q := fun hc => h hc.symm
  simp only [readFile, writeFile]
  rw [List.find?_cons_of_neg _ (by simpa using hne), find?_filter_key_ne _ q p h]

lemma readFile_makedirs (w : World) (d p : String) :
    readFile (makedirs w d) p = readFile w p := by
  unfold makedirs; split <;> rfl

lemma dirExists_makedirs_self (w : World) (d : String) :
    dirExists (makedirs w d) d = true := by
  unfold makedirs
  split
  · assumption
  · simp [dirExists]

lemma readFile_removeFile_self (w : World) (p : String) :
    readFile (removeFile w p) p = none := by
  simp only [readFile, removeFile]
  rw [find?_filter_key_self]
  rfl

lemma readFile_removeFile_ne (w : World) (p q : String) (h : ¬ p = q) :
    readFile (removeFile w q) p = readFile w p := by
  simp only [readFile, removeFile]
  rw [find?_filter_key_ne _ p q h]

@[simp] lemma dirs_removeFile (w : World) (p : String) : (removeFile w p).dirs = w.dirs := rfl

@[simp] lemma dirExists_removeFile (w : World) (p d : String) :
    dirExists (removeFile w p) d = dirExists w d := rfl

lemma readFile_rmtree_prefix (w : World) (d p : String)
    (h : strStartsWith p (d ++ "/") = true) :
    readFile (rmtree w d) p = none := by
  simp only [readFile, rmtree]
  rw [find?_filter_startsWith _ _ _ h]
  rfl

lemma dirExists_rmtree_self (w : World) (d : String) :
    dirExists (rmtree w d) d = false := by
  simp only [dirExists, rmtree]
  exact any_filter_rmtree _ _

/-! ## Unfolding lemmas for the script functions -/

lemma download_file_200 (net : String → Nat × String) (url save_dir : String)
    (file_name : Option String) (w : World) (body : String)
    (h : net url = (200, body)) :
    download_file net url save_dir file_name w
      = emit (writeFile (makedirs w save_dir)
          (joinPath save_dir (file_name.getD (lastSegment url))) body)
          (savedMsg (joinPath save_dir (file_name.getD (lastSegment url)))) := by
  unfold download_file
  rw [h]
  cases file_name <;> simp

lemma download_file_not200 (net : String → Nat × String) (url save_dir : String)
    (file_name : Option String) (w : World) (status : Nat) (body : String)
    (h : net url = (status, body)) (hst : ¬ status = 200) :
    download_file net url save_dir file_name w = emit w (failMsg url status) := by
  unfold download_file
  rw [h]
  simp [hst]

lemma unzip_and_clean_missing_tar (parseTar : String → Option (List (String × String)))
    (pmc_id save_dir : String) (w : World)
    (h : readFile w (joinPath save_dir ("PMC" ++ pmc_id ++ ".tar.gz")) = none) :
    unzip_and_clean parseTar pmc_id save_dir w
      = .error (.fileNotFound (joinPath save_dir ("PMC" ++ pmc_id ++ ".tar.gz")), w) := by
  unfold unzip_and_clean
  rw [h]

lemma unzip_and_clean_parse_none (parseTar : String → Option (List (String × String)))
    (pmc_id save_dir : String) (w : World) (content : String)
    (h1 : readFile w (joinPath save_dir ("PMC" ++ pmc_id ++ ".tar.gz")) = some content)
    (h2 : parseTar content = none) :
    unzip_and_clean parseTar pmc_id save_dir w
      = .error (.tarReadError (joinPath save_dir ("PMC" ++ pmc_id ++ ".tar.gz")), w) := by
  unfold unzip_and_clean
  simp only [h1, h2]

lemma unzip_and_clean_parse_some (parseTar : String → Option (List (String × String)))
    (pmc_id save_dir : String) (w : World) (content : String)
    (entries : List (String × String))
    (h1 : readFile w (joinPath save_dir ("PMC" ++ pmc_id ++ ".tar.gz")) = some content)
    (h2 : parseTar content = some entries) :
    unzip_and_clean parseTar pmc_id save_dir w
      = unzipRest pmc_id save_dir (extractAll entries save_dir w) := by
  unfold unzip_and_clean
  simp only [h1, h2]

lemma unzipFinish_cleanup (pmc_id save_dir : String) (w2 : World) :
    readFile (unzipFinish pmc_id save_dir w2) (joinPath save_dir ("PMC" ++ pmc_id ++ ".tar.gz")) = none
    ∧ dirExists (unzipFinish pmc_id save_dir w2) (joinPath save_dir ("PMC" ++ pmc_id)) = false
    ∧ ∀ p : String, strStartsWith p (joinPath save_dir ("PMC" ++ pmc_id) ++ "/") = true →
        readFile (unzipFinish pmc_id save_dir w2) p = none := by
  unfold unzipFinish
  refine ⟨readFile_removeFile_self _ _, ?_, ?_⟩
  · rw [dirExists_removeFile]
    exact dirExists_rmtree_self _ _
  · intro p hp
    by_cases hpt : p = joinPath save_dir ("PMC" ++ pmc_id ++ ".tar.gz")
    · rw [hpt]
      exact readFile_removeFile_self _ _
    · rw [readFile_removeFile_ne _ _ _ hpt]
      exact readFile_rmtree_prefix _ _ _ hp

lemma get_pmc_ids_200 (net : String → Nat × String)
    (search_term save_dir file_name : String) (RetMax : Nat) (w : World) (body : String)
    (h : net (esearchUrl search_term RetMax) = (200, body)) :
    get_pmc_ids net search_term save_dir file_name RetMax w
      = .ok (findAllIds body,
          emit (writeFile (makedirs w save_dir) (joinPath save_dir file_name) body)
            (savedMsg (joinPath save_dir file_name))) := by
  unfold get_pmc_ids
  rw [download_file_200 _ _ _ _ _ _ h]
  simp only [Option.getD_some, readFile_emit]
  rw [readFile_writeFile_self]

lemma movePdf_moves (extracted_dir save_dir : String) (w : World) (pdf_file c : String)
    (hfalse : pathExists w (joinPath save_dir pdf_file) = false)
    (hsrc : readFile w (joinPath extracted_dir pdf_file) = some c) :
    movePdf extracted_dir save_dir w pdf_file
      = emit (writeFile (removeFile w (joinPath extracted_dir pdf_file))
          (joinPath save_dir pdf_file) c) (extractedMsg pdf_file) := by
  unfold movePdf
  rw [hfalse, hsrc]
  rfl

lemma movePdf_conflict (extracted_dir save_dir : String) (w : World) (pdf_file : String)
    (htrue : pathExists w (joinPath save_dir pdf_file) = true) :
    movePdf extracted_dir save_dir w pdf_file = emit w (conflictMsg pdf_file) := by
  unfold movePdf
  rw [htrue]
  rfl

lemma get_pmc_ids_non200 (net : String → Nat × String)
    (search_term save_dir file_name : String) (RetMax : Nat) (w : World)
    (status : Nat) (body : String)
    (h : net (esearchUrl search_term RetMax) = (status, body)) (hst : ¬ status = 200)
    (habs : readFile w (joinPath save_dir file_name) = none) :
    get_pmc_ids net search_term save_dir file_name RetMax w
      = .error (.fileNotFound (joinPath save_dir file_name),
          emit w (failMsg (esearchUrl search_term RetMax) status)) := by
  unfold get_pmc_ids
  rw [download_file_not200 _ _ _ _ _ _ _ h hst]
  simp only [readFile_emit]
  rw [habs]

/-! ## Claim theorems -/

/-- C1. Every call to `unzip_and_clean` that reaches its final step (that is,
the call returns normally) ends with both the extracted directory
`<save_dir>/PMC<id>` (including everything below it) and the archive
`<save_dir>/PMC<id>.tar.gz` deleted, regardless of whether a pdf was found,
moved, or hit a name conflict; and on the demo archive containing `foo.pdf`
the resulting world holds exactly `d/foo.pdf`, with no extracted
subdirectory and no archive file. -/
theorem unzip_and_clean_cleanup_invariant :
    (∀ (parseTar : String → Option (List (String × String))) (pmc_id save_dir : String)
        (w w' : World), unzip_and_clean parseTar pmc_id save_dir w = .ok w' →
        readFile w' (joinPath save_dir ("PMC" ++ pmc_id ++ ".tar.gz")) = none
        ∧ dirExists w' (joinPath save_dir ("PMC" ++ pmc_id)) = false
        ∧ ∀ p : String, strStartsWith p (joinPath save_dir ("PMC" ++ pmc_id) ++ "/") = true →
            readFile w' p = none)
    ∧ unzip_and_clean demoParse "7" "d" demoW
        = .ok ⟨[(joinPath "d" "foo.pdf", "PDF")], ["d"], [extractedMsg "foo.pdf"]⟩ := by
  constructor
  · intro parseTar pmc_id save_dir w w' h
    rcases hread : readFile w (joinPath save_dir ("PMC" ++ pmc_id ++ ".tar.gz")) with _ | content
    · rw [unzip_and_clean_missing_tar parseTar pmc_id save_dir w hread] at h
      exact Except.noConfusion h
    · rcases hparse : parseTar content with _ | entries
      · rw [unzip_and_clean_parse_none parseTar pmc_id save_dir w content hread hparse] at h
        exact Except.noConfusion h
      · rw [unzip_and_clean_parse_some parseTar pmc_id save_dir w content entries hread hparse] at h
        unfold unzipRest at h
        split at h
        · injection h with h2
          subst h2
          exact unzipFinish_cleanup _ _ _
        · exact Except.noConfusion h
  · rfl

/-- C1 witness: the cleanup invariant applied to the concrete demo run
(whose result world is computed by the second conjunct of the theorem). -/
theorem unzip_and_clean_cleanup_invariant_witness :
    readFile (⟨[(joinPath "d" "foo.pdf", "PDF")], ["d"], [extractedMsg "foo.pdf"]⟩ : World)
        (joinPath "d" ("PMC" ++ "7" ++ ".tar.gz")) = none
    ∧ dirExists (⟨[(joinPath "d" "foo.pdf", "PDF")], ["d"], [extractedMsg "foo.pdf"]⟩ : World)
        (joinPath "d" ("PMC" ++ "7")) = false := by
  have h := unzip_and_clean_cleanup_invariant.1 demoParse "7" "d" demoW
    ⟨[(joinPath "d" "foo.pdf", "PDF")], ["d"], [extractedMsg "foo.pdf"]⟩ (by rfl)
  exact ⟨h.1, h.2.1⟩

/-- C2 counterexample: with the table resolving PMC7 and every GET answering
404, `download_pmc_pdf` does not continue without raising — it raises a
file-not-found error from `tarfile.open` on the absent archive. -/
theorem download_pmc_pdf_raises_after_failed_download_cex :
    download_pmc_pdf demoParse net404 "7" demoTable "d" emptyWorld
      = .error (.fileNotFound (joinPath "d" "PMC7.tar.gz"),
          emit emptyWorld (failMsg (base_url ++ "oa/PMC7.tar.gz") 404)) := by
  rfl

/-- C2 (amended): a non-200 response is logged and is non-fatal inside
`download_file` itself, but `download_pmc_pdf` then calls `unzip_and_clean`
unconditionally, which raises when the archive file is absent — so after a
non-200 archive download the per-identifier processing aborts. -/
theorem download_pmc_pdf_error_after_non200
    (parseTar : String → Option (List (String × String))) (net : String → Nat × String)
    (pmc_id link save_dir : String) (file_csv : List Row) (w : World)
    (status : Nat) (body : String)
    (hres : get_url file_csv pmc_id = some link)
    (hnet : net (base_url ++ link) = (status, body))
    (hst : ¬ status = 200)
    (habs : readFile w (joinPath save_dir ("PMC" ++ pmc_id ++ ".tar.gz")) = none) :
    download_pmc_pdf parseTar net pmc_id file_csv save_dir w
      = .error (.fileNotFound (joinPath save_dir ("PMC" ++ pmc_id ++ ".tar.gz")),
          emit w (failMsg (base_url ++ link) status))
    ∧ (emit w (failMsg (base_url ++ link) status)).out
        = w.out ++ [failMsg (base_url ++ link) status] := by
  constructor
  · unfold download_pmc_pdf
    simp only [hres]
    rw [download_file_not200 _ _ _ _ _ _ _ hnet hst]
    exact unzip_and_clean_missing_tar parseTar pmc_id save_dir _
      (by rw [readFile_emit]; exact habs)
  · rfl

/-- C2 witness: the amended statement at a concrete non-200 run. -/
theorem download_pmc_pdf_error_after_non200_witness :
    download_pmc_pdf demoParse net404 "7" demoTable "e" emptyWorld
      = .error (.fileNotFound (joinPath "e" ("PMC" ++ "7" ++ ".tar.gz")),
          emit emptyWorld (failMsg (base_url ++ "oa/PMC7.tar.gz") 404)) :=
  (download_pmc_pdf_error_after_non200 demoParse net404 "7" "oa/PMC7.tar.gz" "e"
    demoTable emptyWorld 404 "" rfl rfl (by decide) rfl).1

/-- C3 counterexample: on a 404 search response over an empty file system,
`get_pmc_ids` raises and no file exists at `<save_dir>/<file_name>` — the
raw response is not written unconditionally. -/
theorem get_pmc_ids_no_file_on_failure_cex :
    get_pmc_ids net404 "gene" "d" "r.xml" 20 emptyWorld
      = .error (.fileNotFound (joinPath "d" "r.xml"),
          emit emptyWorld (failMsg (esearchUrl "gene" 20) 404))
    ∧ readFile (emit emptyWorld (failMsg (esearchUrl "gene" 20) 404))
        (joinPath "d" "r.xml") = none := ⟨rfl, rfl⟩

/-- C3 (amended): `get_pmc_ids` writes the raw search response to
`<save_dir>/<file_name>` exactly when the HTTP GET returns 200; on a
non-200 response nothing is written and, when no file already exists at
that path, reopening it raises a file-not-found error. -/
theorem get_pmc_ids_writes_file_iff_200 (net : String → Nat × String)
    (search_term save_dir file_name : String) (RetMax : Nat) (w : World)
    (status : Nat) (body : String)
    (h : net (esearchUrl search_term RetMax) = (status, body)) :
    (status = 200 →
       get_pmc_ids net search_term save_dir file_name RetMax w
         = .ok (findAllIds body,
             emit (writeFile (makedirs w save_dir) (joinPath save_dir file_name) body)
               (savedMsg (joinPath save_dir file_name)))
       ∧ readFile (emit (writeFile (makedirs w save_dir) (joinPath save_dir file_name) body)
             (savedMsg (joinPath save_dir file_name))) (joinPath save_dir file_name)
           = some body)
    ∧ (¬ status = 200 → readFile w (joinPath save_dir file_name) = none →
       get_pmc_ids net search_term save_dir file_name RetMax w
         = .error (.fileNotFound (joinPath save_dir file_name),
             emit w (failMsg (esearchUrl search_term RetMax) status))
       ∧ (emit w (failMsg (esearchUrl search_term RetMax) status)).files = w.files) := by
  constructor
  · intro h200
    subst h200
    refine ⟨get_pmc_ids_200 _ _ _ _ _ _ _ h, ?_⟩
    rw [readFile_emit, readFile_writeFile_self]
  · intro hst habs
    exact ⟨get_pmc_ids_non200 _ _ _ _ _ _ _ _ h hst habs, rfl⟩

/-- C3 witness: both branches of the amended statement at concrete inputs. -/
theorem get_pmc_ids_writes_file_iff_200_witness :
    get_pmc_ids netThree "gene" "d" "r.xml" 2 emptyWorld
      = .ok (findAllIds "<Id>1</Id><Id>2</Id><Id>3</Id>",
          emit (writeFile (makedirs emptyWorld "d") (joinPath "d" "r.xml")
            "<Id>1</Id><Id>2</Id><Id>3</Id>") (savedMsg (joinPath "d" "r.xml")))
    ∧ get_pmc_ids net404 "gene" "e" "s.xml" 20 emptyWorld
        = .error (.fileNotFound (joinPath "e" "s.xml"),
            emit emptyWorld (failMsg (esearchUrl "gene" 20) 404)) :=
  ⟨((get_pmc_ids_writes_file_iff_200 netThree "gene" "d" "r.xml" 2 emptyWorld
      200 "<Id>1</Id><Id>2</Id><Id>3</Id>" rfl).1 rfl).1,
   ((get_pmc_ids_writes_file_iff_200 net404 "gene" "e" "s.xml" 20 emptyWorld
      404 "" rfl).2 (by decide) rfl).1⟩

/-- C4. The path resolver returns exactly the stored path of the first row
whose accession column equals `PMC<identifier>` when one exists, and `none`
when no row matches: it agrees with the find-first specification, returns
`none` on tables with no matching row, and returns the found row's `File`
value otherwise. -/
theorem get_url_resolution_correct (file_csv : List Row) (pmc_id : String) :
    get_url file_csv pmc_id = get_url_spec file_csv pmc_id
    ∧ ((∀ r ∈ file_csv, r.accessionID ≠ "PMC" ++ pmc_id) → get_url file_csv pmc_id = none)
    ∧ (∀ r : Row, file_csv.find? (fun x => decide (x.accessionID = "PMC" ++ pmc_id)) = some r →
        r.accessionID = "PMC" ++ pmc_id ∧ get_url file_csv pmc_id = some r.file) := by
  have hmain : get_url file_csv pmc_id = get_url_spec file_csv pmc_id := by
    unfold get_url get_url_spec
    rw [head?_filter_eq_find?]
    cases file_csv.find? (fun r => decide (r.accessionID = "PMC" ++ pmc_id)) <;> rfl
  refine ⟨hmain, ?_, ?_⟩
  · intro hall
    rw [hmain]
    unfold get_url_spec
    have hnone : file_csv.find? (fun x => decide (x.accessionID = "PMC" ++ pmc_id)) = none := by
      rw [List.find?_eq_none]
      intro r hr
      simp [hall r hr]
    rw [hnone]
    rfl
  · intro r hr
    have hp := List.find?_some hr
    refine ⟨of_decide_eq_true hp, ?_⟩
    rw [hmain]
    unfold get_url_spec
    rw [hr]
    rfl

/-- C4 witness: resolution on the demo table, hit and miss. -/
theorem get_url_resolution_correct_witness :
    get_url demoTable "9" = none ∧ get_url demoTable "7" = some "oa/PMC7.tar.gz" := by
  constructor
  · exact (get_url_resolution_correct demoTable "9").2.1 (by decide)
  · exact ((get_url_resolution_correct demoTable "7").2.2 ⟨"PMC7", "oa/PMC7.tar.gz"⟩ rfl).2

/-- C5. On an HTTP 200 with body B, `download_file` creates the destination
directory if absent and writes exactly B to `<dir>/<name>`, where the name
defaults to the final path segment of the url; the conclusion holds for any
prior world, so an existing file at that path is silently overwritten. -/
theorem download_file_writes_body_on_200 (net : String → Nat × String)
    (url save_dir : String) (file_name : Option String) (w : World) (body : String)
    (h : net url = (200, body)) :
    dirExists (download_file net url save_dir file_name w) save_dir = true
    ∧ readFile (download_file net url save_dir file_name w)
        (joinPath save_dir (file_name.getD (lastSegment url))) = some body
    ∧ (download_file net url save_dir file_name w).out
        = w.out ++ [savedMsg (joinPath save_dir (file_name.getD (lastSegment url)))] := by
  rw [download_file_200 net url save_dir file_name w body h]
  refine ⟨?_, ?_, ?_⟩
  · rw [dirExists_emit, dirExists_writeFile]
    exact dirExists_makedirs_self _ _
  · rw [readFile_emit, readFile_writeFile_self]
  · rw [out_emit, out_writeFile, out_makedirs]

/-- C5 witness: a 200 download over a world that already holds an old file
at the target path `d/a.bin`; the new body replaces it byte for byte. -/
theorem download_file_writes_body_on_200_witness :
    dirExists (download_file (fun _ => (200, "NEW")) "http://x/a.bin" "d" none wOld) "d" = true
    ∧ readFile (download_file (fun _ => (200, "NEW")) "http://x/a.bin" "d" none wOld)
        (joinPath "d" ((none : Option String).getD (lastSegment "http://x/a.bin"))) = some "NEW"
    ∧ readFile wOld (joinPath "d" "a.bin") = some "OLD" := by
  have h := download_file_writes_body_on_200 (fun _ => (200, "NEW"))
    "http://x/a.bin" "d" none wOld "NEW" rfl
  exact ⟨h.1, h.2.1, rfl⟩

/-- C6. On a non-200 status, `download_file` writes no file, changes no
directory, raises nothing (it is a total function into `World`), and emits
exactly one diagnostic line. -/
theorem download_file_non200_silent_noop (net : String → Nat × String)
    (url save_dir : String) (file_name : Option String) (w : World)
    (status : Nat) (body : String)
    (h : net url = (status, body)) (hst : ¬ status = 200) :
    (download_file net url save_dir file_name w).files = w.files
    ∧ (download_file net url save_dir file_name w).dirs = w.dirs
    ∧ (download_file net url save_dir file_name w).out = w.out ++ [failMsg url status] := by
  rw [download_file_not200 net url save_dir file_name w status body h hst]
  exact ⟨rfl, rfl, rfl⟩

/-- C6 witness: the silent no-op at a concrete 404. -/
theorem download_file_non200_silent_noop_witness :
    (download_file net404 "u" "d" none wOld).files = wOld.files
    ∧ (download_file net404 "u" "d" none wOld).dirs = wOld.dirs
    ∧ (download_file net404 "u" "d" none wOld).out = wOld.out ++ [failMsg "u" 404] :=
  download_file_non200_silent_noop net404 "u" "d" none wOld 404 "" rfl (by decide)

/-- C7. For each extracted file ending in `.pdf`, the move step of the
unpacker moves it to `<save_dir>` when no same-named entry exists there
(reporting success), and otherwise reports a conflict, leaves the source in
place inside the extracted directory, and leaves the file system unchanged
(in particular the existing file at `<save_dir>` keeps its content). -/
theorem movePdf_move_or_conflict (extracted_dir save_dir pdf_file c : String) (w : World)
    (hsrc : readFile w (joinPath extracted_dir pdf_file) = some c)
    (hne : ¬ joinPath extracted_dir pdf_file = joinPath save_dir pdf_file) :
    (pathExists w (joinPath save_dir pdf_file) = false →
       readFile (movePdf extracted_dir save_dir w pdf_file) (joinPath save_dir pdf_file) = some c
       ∧ readFile (movePdf extracted_dir save_dir w pdf_file) (joinPath extracted_dir pdf_file) = none
       ∧ (movePdf extracted_dir save_dir w pdf_file).out = w.out ++ [extractedMsg pdf_file])
    ∧ (pathExists w (joinPath save_dir pdf_file) = true →
       (movePdf extracted_dir save_dir w pdf_file).files = w.files
       ∧ (movePdf extracted_dir save_dir w pdf_file).dirs = w.dirs
       ∧ (movePdf extracted_dir save_dir w pdf_file).out = w.out ++ [conflictMsg pdf_file]) := by
  constructor
  · intro hfalse
    rw [movePdf_moves extracted_dir save_dir w pdf_file c hfalse hsrc]
    refine ⟨?_, ?_, rfl⟩
    · rw [readFile_emit, readFile_writeFile_self]
    · rw [readFile_emit, readFile_writeFile_ne _ _ _ _ hne, readFile_removeFile_self]
  · intro htrue
    rw [movePdf_conflict extracted_dir save_dir w pdf_file htrue]
    exact ⟨rfl, rfl, rfl⟩

/-- C7 witness: a concrete move (no conflict) and a concrete conflict. -/
theorem movePdf_move_or_conflict_witness :
    readFile (movePdf "x" "y" wMove "a.pdf") (joinPath "y" "a.pdf") = some "P"
    ∧ readFile (movePdf "x" "y" wMove "a.pdf") (joinPath "x" "a.pdf") = none
    ∧ (movePdf "x" "y" wConf "a.pdf").files = wConf.files
    ∧ readFile wConf (joinPath "y" "a.pdf") = some "Q" := by
  have h1 := (movePdf_move_or_conflict "x" "y" "a.pdf" "P" wMove rfl (by decide)).1 rfl
  have h2 := (movePdf_move_or_conflict "x" "y" "a.pdf" "P" wConf rfl (by decide)).2 rfl
  exact ⟨h1.1, h1.2.1, h2.1, rfl⟩

/-- C8. The orchestrator: on a resolution miss it only logs and skips (no
download, no unpack — the result world is just the input plus the log
line); on a hit it fetches `base_url ++ link` and then unpacks; and the
batch loop processes identifiers strictly sequentially in list order,
propagating the state from one identifier to the next and stopping at the
first raised error. -/
theorem download_pmc_pdf_orchestration :
    (∀ (parseTar : String → Option (List (String × String))) (net : String → Nat × String)
        (file_csv : List Row) (save_dir pmc_id : String) (w : World),
        get_url file_csv pmc_id = none →
        download_pmc_pdf parseTar net pmc_id file_csv save_dir w
          = .ok (emit w (noUrlMsg pmc_id)))
    ∧ (∀ (parseTar : String → Option (List (String × String))) (net : String → Nat × String)
        (file_csv : List Row) (save_dir pmc_id link : String) (w : World),
        get_url file_csv pmc_id = some link →
        download_pmc_pdf parseTar net pmc_id file_csv save_dir w
          = unzip_and_clean parseTar pmc_id save_dir
              (download_file net (base_url ++ link) save_dir none w))
    ∧ (∀ (parseTar : String → Option (List (String × String))) (net : String → Nat × String)
        (file_csv : List Row) (save_dir : String) (w : World),
        run_batch parseTar net file_csv save_dir [] w = .ok w)
    ∧ (∀ (parseTar : String → Option (List (String × String))) (net : String → Nat × String)
        (file_csv : List Row) (save_dir pmc_id : String) (rest : List String) (w w1 : World),
        download_pmc_pdf parseTar net pmc_id file_csv save_dir w = .ok w1 →
        run_batch parseTar net file_csv save_dir (pmc_id :: rest) w
          = run_batch parseTar net file_csv save_dir rest w1)
    ∧ (∀ (parseTar : String → Option (List (String × String))) (net : String → Nat × String)
        (file_csv : List Row) (save_dir pmc_id : String) (rest : List String) (w : World)
        (e : PyError × World),
        download_pmc_pdf parseTar net pmc_id file_csv save_dir w = .error e →
        run_batch parseTar net file_csv save_dir (pmc_id :: rest) w = .error e) := by
  refine ⟨?_, ?_, ?_, ?_, ?_⟩
  · intro parseTar net file_csv save_dir pmc_id w h
    unfold download_pmc_pdf
    simp only [h]
  · intro parseTar net file_csv save_dir pmc_id link w h
    unfold download_pmc_pdf
    simp only [h]
  · intro parseTar net file_csv save_dir w
    rfl
  · intro parseTar net file_csv save_dir pmc_id rest w w1 h
    simp only [run_batch, h]
  · intro parseTar net file_csv save_dir pmc_id rest w e h
    simp only [run_batch, h]

/-- C8 witness: a concrete skip-with-log, a concrete fetch-then-unpack
decomposition, and one sequential step of the batch loop. -/
theorem download_pmc_pdf_orchestration_witness :
    download_pmc_pdf demoParse net404 "9" demoTable "d" emptyWorld
      = .ok (emit emptyWorld (noUrlMsg "9"))
    ∧ download_pmc_pdf demoParse netTar "7" demoTable "d" emptyWorld
        = unzip_and_clean demoParse "7" "d"
            (download_file netTar (base_url ++ "oa/PMC7.tar.gz") "d" none emptyWorld)
    ∧ run_batch demoParse net404 demoTable "d" ["9"] emptyWorld
        = run_batch demoParse net404 demoTable "d" [] (emit emptyWorld (noUrlMsg "9")) := by
  refine ⟨?_, ?_, ?_⟩
  · exact download_pmc_pdf_orchestration.1 demoParse net404 demoTable "d" "9" emptyWorld rfl
  · exact download_pmc_pdf_orchestration.2.1 demoParse netTar demoTable "d" "7"
      "oa/PMC7.tar.gz" emptyWorld rfl
  · exact download_pmc_pdf_orchestration.2.2.2.1 demoParse net404 demoTable "d" "9" []
      emptyWorld (emit emptyWorld (noUrlMsg "9"))
      (download_pmc_pdf_orchestration.1 demoParse net404 demoTable "d" "9" emptyWorld rfl)

/-- C9. When several rows match `PMC<identifier>`, the resolver raises no
error and returns the `File` value of the first matching row, whatever
matches occur later in the table. -/
theorem get_url_first_of_duplicates (pre post : List Row) (r q : Row) (pmc_id : String)
    (hpre : ∀ x ∈ pre, x.accessionID ≠ "PMC" ++ pmc_id)
    (hr : r.accessionID = "PMC" ++ pmc_id)
    (_hq : q ∈ post) (_hq2 : q.accessionID = "PMC" ++ pmc_id) :
    get_url (pre ++ r :: post) pmc_id = some r.file := by
  unfold get_url
  rw [List.filter_append]
  have hpre2 : pre.filter (fun x => decide (x.accessionID = "PMC" ++ pmc_id)) = [] := by
    rw [List.filter_eq_nil_iff]
    intro x hx
    simp [hpre x hx]
  rw [hpre2, List.filter_cons]
  simp [hr]

/-- C9 witness: a table with two rows for `PMC7`; the first one wins. -/
theorem get_url_first_of_duplicates_witness :
    get_url dupTable "7" = some "first.tar.gz" :=
  get_url_first_of_duplicates [] [⟨"PMC7", "second.tar.gz"⟩]
    ⟨"PMC7", "first.tar.gz"⟩ ⟨"PMC7", "second.tar.gz"⟩ "7"
    (by simp) rfl (by simp) rfl

/-- C10. `get_pmc_ids` returns exactly one identifier per `Id` element of
the parsed response document, in document order, with no local truncation:
the result is `findAllIds body` whatever `RetMax` is (the bound only enters
the request url), so a response with three ids and `RetMax = 2` yields all
three identifiers. -/
theorem get_pmc_ids_no_truncation :
    (∀ (net : String → Nat × String) (search_term save_dir file_name : String)
        (RetMax : Nat) (w : World) (body : String),
        net (esearchUrl search_term RetMax) = (200, body) →
        get_pmc_ids net search_term save_dir file_name RetMax w
          = .ok (findAllIds body,
              emit (writeFile (makedirs w save_dir) (joinPath save_dir file_name) body)
                (savedMsg (joinPath save_dir file_name))))
    ∧ findAllIds "<Id>1</Id><Id>2</Id><Id>3</Id>" = ["1", "2", "3"]
    ∧ get_pmc_ids netThree "gene" "d" "r.xml" 2 emptyWorld
        = .ok (["1", "2", "3"],
            emit (writeFile (makedirs emptyWorld "d") (joinPath "d" "r.xml")
              "<Id>1</Id><Id>2</Id><Id>3</Id>") (savedMsg (joinPath "d" "r.xml")))
    ∧ 2 < (findAllIds "<Id>1</Id><Id>2</Id><Id>3</Id>").length := by
  refine ⟨?_, by rfl, by rfl, by decide⟩
  intro net search_term save_dir file_name RetMax w body h
  exact get_pmc_ids_200 net search_term save_dir file_name RetMax w body h

/-- C10 witness: the general equation instantiated at the three-id network
with `RetMax = 2`. -/
theorem get_pmc_ids_no_truncation_witness :
    get_pmc_ids netThree "g" "e" "s.xml" 2 emptyWorld
      = .ok (findAllIds "<Id>1</Id><Id>2</Id><Id>3</Id>",
          emit (writeFile (makedirs emptyWorld "e") (joinPath "e" "s.xml")
            "<Id>1</Id><Id>2</Id><Id>3</Id>") (savedMsg (joinPath "e" "s.xml"))) :=
  get_pmc_ids_no_truncation.1 netThree "g" "e" "s.xml" 2 emptyWorld
    "<Id>1</Id><Id>2</Id><Id>3</Id>" rfl

end Pmc
